import Mathlib

/-!
Verification of the systematic-review pipeline (src/main.py).

The embedding models:
- the Crossref search connector `crossref_search_json` (the one outbound
  HTTP call is represented by an explicit `http : String → HttpResponse`
  oracle, and the function additionally returns the list of request URLs it
  issued, so that single-request properties are statable);
- the six DSPy agent stages as an opaque `Backend` record of functions,
  each returning a per-stage result whose declared output field is an
  `Option` (a backend may omit a declared field, as a DSPy `Prediction`
  may);
- the Typer command `run` as a function from a backend and a query to the
  final `PipelineState`, with `Option.getD` standing for Python's
  `result.get(field, default)` fallbacks;
- environment/credential startup (`api_key = os.getenv(..) or os.getenv(..)`,
  `if not api_key: raise`) with Python truthiness made explicit;
- a raised Python exception as `none` in an `Option`-typed result.
-/

/-- A publication record as built by the connector loop in
`crossref_search_json` (src/main.py lines 32-40): the `doi`, `url` and
`publisher` fields come from `item.get(..)` and may be `None`; `title` is a
plain string. -/
structure Publication where
  doi : Option String
  title : String
  url : Option String
  publisher : Option String
deriving DecidableEq, Repr

/-- One element of `message.items` in a Crossref JSON body: every key may be
absent (Python dict `.get`), and `title` is a list of strings when present. -/
structure CrossrefItem where
  DOI : Option String
  title : Option (List String)
  URL : Option String
  publisher : Option String
deriving DecidableEq, Repr

/-- The `message` object of a Crossref JSON body; `items` may be absent. -/
structure CrossrefMessage where
  items : Option (List CrossrefItem)
deriving DecidableEq, Repr

/-- A Crossref JSON response body; the `message` key may be absent. -/
structure CrossrefBody where
  message : Option CrossrefMessage
deriving DecidableEq, Repr

/-- A response from `requests.get`: status code plus parsed JSON body. -/
structure HttpResponse where
  status_code : Nat
  body : CrossrefBody
deriving DecidableEq, Repr

/-- Result of `crossref_search_json`: either the error dict
`{"error": "Failed to fetch from Crossref."}` or the list of papers. -/
inductive ConnectorResult where
  | error (msg : String)
  | papers (ps : List Publication)
deriving DecidableEq, Repr

/-- The fixed request URL: `f"https://api.crossref.org/works?query={query}&rows=5"`
(src/main.py line 25). -/
def crossrefUrl (query : String) : String :=
  "https://api.crossref.org/works?query=" ++ query ++ "&rows=5"

/-- The body of the `for item in items` loop (src/main.py lines 34-39):
`item.get("title", ["Untitled"])[0]` indexes the default `["Untitled"]` when
the key is absent, but raises IndexError (here `none`) when the key is
present with an empty list. -/
def paperOfItem (item : CrossrefItem) : Option Publication :=
  match item.title.getD ["Untitled"] with
  | [] => none
  | t :: _ =>
      some { doi := item.DOI, title := t, url := item.URL, publisher := item.publisher }

/-- The `papers = []; for item in items: papers.append(...)` loop
(src/main.py lines 32-39); `none` is an uncaught exception from an
iteration. -/
def buildPapers : List CrossrefItem → Option (List Publication)
  | [] => some []
  | item :: rest =>
      match paperOfItem item with
      | none => none
      | some p => (buildPapers rest).map (fun ps => p :: ps)

/-- `crossref_search_json` (src/main.py lines 23-40). The `http` oracle
stands for `requests.get`; the second component of the result is the list of
request URLs issued during the call. A `none` first component is an uncaught
exception escaping the function. -/
def crossref_search_json (http : String → HttpResponse) (query : String) :
    Option ConnectorResult × List String :=
  let url := crossrefUrl query
  let response := http url
  if response.status_code ≠ 200 then
    (some (ConnectorResult.error "Failed to fetch from Crossref."), [url])
  else
    let items := (response.body.message.getD { items := none }).items.getD []
    ((buildPapers items).map ConnectorResult.papers, [url])

/-- Output of `problem_agent` (signature ProblemFormulationAgent): the
declared `refined_query` field, possibly omitted by the backend. -/
structure FormulateResult where
  refined_query : Option String
deriving DecidableEq, Repr

/-- Output of `query_builder_agent` (signature QueryBuilderAgent). -/
structure BuildQueryResult where
  search_query : Option String
deriving DecidableEq, Repr

/-- Output of `retrieval_agent` (signature DataRetrievalAgent). -/
structure RetrieveResult where
  papers : Option (List Publication)
deriving DecidableEq, Repr

/-- Output of `prescreen_agent` (signature DataPrescreenAgent). -/
structure PrescreenResult where
  filtered_papers : Option (List Publication)
deriving DecidableEq, Repr

/-- Output of `pdf_agent` (signature PDFRetrievalAgent). -/
structure PdfResult where
  pdf_links : Option (List String)
deriving DecidableEq, Repr

/-- Output of `synthesis_agent` (signature DataSynthesisAgent). -/
structure SynthesizeResult where
  final_summary : Option String
deriving DecidableEq, Repr

/-- The six agent objects of src/main.py lines 88-93, abstracted over the
language-model backend: each stage is a function from exactly the keyword
arguments the orchestrator passes it to its declared output fields. -/
structure Backend where
  problem_agent : String → FormulateResult
  query_builder_agent : String → BuildQueryResult
  retrieval_agent : String → RetrieveResult
  prescreen_agent : List Publication → PrescreenResult
  pdf_agent : List Publication → PdfResult
  synthesis_agent : List String → List Publication → SynthesizeResult

/-- The named values threaded through one invocation of `run`. -/
structure PipelineState where
  query : String
  refined_query : String
  search_query : String
  papers : List Publication
  filtered_papers : List Publication
  pdf_links : List String
  final_summary : String
deriving DecidableEq, Repr

/-- The `run` command (src/main.py lines 102-134), console output elided:
six stage invocations in a straight line, each output read with
`result.get(field, default)`, here `Option.getD`. -/
def run (b : Backend) (query : String) : PipelineState :=
  let problem := b.problem_agent query
  let refined_query := problem.refined_query.getD query
  let query_built := b.query_builder_agent refined_query
  let search_query := query_built.search_query.getD refined_query
  let retrieved := b.retrieval_agent search_query
  let papers := retrieved.papers.getD []
  let prescreened := b.prescreen_agent papers
  let filtered_papers := prescreened.filtered_papers.getD []
  let pdf_stage := b.pdf_agent filtered_papers
  let pdf_links := pdf_stage.pdf_links.getD []
  let synthesis := b.synthesis_agent pdf_links filtered_papers
  let final_summary := synthesis.final_summary.getD "No papers were provided for analysis."
  { query := query, refined_query := refined_query, search_query := search_query,
    papers := papers, filtered_papers := filtered_papers, pdf_links := pdf_links,
    final_summary := final_summary }

/-- Names of the six stage invocations in `run`, in source order. -/
inductive StageName where
  | formulate
  | buildQuery
  | retrieve
  | prescreen
  | retrievePdfs
  | synthesize
deriving DecidableEq, Repr

/-- One stage invocation of `run` together with the argument values the
orchestrator passes it. The retrieval agent's keyword argument is its
`refined_query` input field, bound to the `search_query` value
(src/main.py line 117). -/
inductive StageCall where
  | formulate (query : String)
  | buildQuery (refined_query : String)
  | retrieve (refined_query : String)
  | prescreen (papers : List Publication)
  | retrievePdfs (filtered_papers : List Publication)
  | synthesize (pdf_links : List String) (filtered_papers : List Publication)
deriving DecidableEq, Repr

/-- The stage a call belongs to. -/
def StageCall.stage : StageCall → StageName
  | .formulate _ => .formulate
  | .buildQuery _ => .buildQuery
  | .retrieve _ => .retrieve
  | .prescreen _ => .prescreen
  | .retrievePdfs _ => .retrievePdfs
  | .synthesize _ _ => .synthesize

/-- `run` instrumented with the list of stage invocations it performs, in
order, each with the arguments passed; the state component is exactly
`run b query`. -/
def runTrace (b : Backend) (query : String) : List StageCall × PipelineState :=
  let problem := b.problem_agent query
  let refined_query := problem.refined_query.getD query
  let query_built := b.query_builder_agent refined_query
  let search_query := query_built.search_query.getD refined_query
  let retrieved := b.retrieval_agent search_query
  let papers := retrieved.papers.getD []
  let prescreened := b.prescreen_agent papers
  let filtered_papers := prescreened.filtered_papers.getD []
  let pdf_stage := b.pdf_agent filtered_papers
  let pdf_links := pdf_stage.pdf_links.getD []
  let synthesis := b.synthesis_agent pdf_links filtered_papers
  let final_summary := synthesis.final_summary.getD "No papers were provided for analysis."
  ([StageCall.formulate query, StageCall.buildQuery refined_query,
    StageCall.retrieve search_query, StageCall.prescreen papers,
    StageCall.retrievePdfs filtered_papers,
    StageCall.synthesize pdf_links filtered_papers],
   { query := query, refined_query := refined_query, search_query := search_query,
     papers := papers, filtered_papers := filtered_papers, pdf_links := pdf_links,
     final_summary := final_summary })

theorem runTrace_snd (b : Backend) (q : String) : (runTrace b q).2 = run b q := rfl

/-- Python truthiness of an `os.getenv` result: `None` and the empty string
are falsy, every other string is truthy. -/
def truthy : Option String → Bool
  | none => false
  | some s => !(s == "")

/-- Python's `a or b` on two `os.getenv` results: `a` if truthy, else `b`. -/
def pyOr (a b : Option String) : Option String :=
  if truthy a then a else b

/-- Credential startup (src/main.py lines 13-15):
`api_key = os.getenv("GOOGLE_API_KEY") or os.getenv("GEMINI_API_KEY")`
followed by `if not api_key: raise ValueError(...)`. The environment is a
map from variable name to its value, `none` when unset. An `Except.error`
is the raised `ValueError`. -/
def startup (env : String → Option String) : Except String String :=
  let api_key := pyOr (env "GOOGLE_API_KEY") (env "GEMINI_API_KEY")
  if truthy api_key then Except.ok (api_key.getD "")
  else Except.error "Missing GOOGLE_API_KEY or GEMINI_API_KEY in environment!"

/-- One full process execution: module-level startup runs before Typer ever
dispatches the `run` command, so a startup error yields no pipeline state
and no stage or connector activity. -/
def runProcess (env : String → Option String) (b : Backend) (q : String) :
    Except String PipelineState :=
  match startup env with
  | Except.error e => Except.error e
  | Except.ok _ => Except.ok (run b q)

/-- Reasoning mode of a DSPy agent object as constructed in src/main.py:
`dspy.ReAct` is the iterative tool-use loop, `dspy.ChainOfThought` is direct
structured generation. -/
inductive Mode where
  | react
  | chainOfThought
deriving DecidableEq, Repr

/-- Static configuration of one agent object: its reasoning mode and the
names of the tools it is given. -/
structure AgentConfig where
  mode : Mode
  tools : List String
deriving DecidableEq, Repr

/-- The six agent constructions of src/main.py lines 88-93, in source
order. -/
def agent_table : List (String × AgentConfig) :=
  [("problem_agent", { mode := Mode.react, tools := [] }),
   ("query_builder_agent", { mode := Mode.react, tools := [] }),
   ("retrieval_agent", { mode := Mode.react, tools := ["crossref_search_json"] }),
   ("prescreen_agent", { mode := Mode.react, tools := [] }),
   ("pdf_agent", { mode := Mode.react, tools := [] }),
   ("synthesis_agent", { mode := Mode.chainOfThought, tools := [] })]

/-- Process-wide state visible across CLI invocations in one process: the
module-level agent objects and configuration. `run` only reads it. -/
structure Process where
  backend : Backend

/-- One CLI invocation of the `run` command inside a live process: it
returns the (unchanged) process and the pipeline state it produced. -/
def invoke (p : Process) (q : String) : Process × PipelineState :=
  (p, run p.backend q)

def noneBackend : Backend where
  problem_agent := fun _ => { refined_query := none }
  query_builder_agent := fun _ => { search_query := none }
  retrieval_agent := fun _ => { papers := none }
  prescreen_agent := fun _ => { filtered_papers := none }
  pdf_agent := fun _ => { pdf_links := none }
  synthesis_agent := fun _ _ => { final_summary := none }

/-- C1: for each of the six stages of `run`, if the backend result omits the
stage's declared output field, the orchestrator substitutes the documented
fallback (refined_query := query; search_query := refined_query;
papers := []; filtered_papers := []; pdf_links := [];
final_summary := "No papers were provided for analysis.") and, `run` being a
straight-line total function, still advances through every later stage. -/
theorem c1_stage_fallbacks (b : Backend) (q : String) :
    ((b.problem_agent q).refined_query = none → (run b q).refined_query = q) ∧
    ((b.query_builder_agent (run b q).refined_query).search_query = none →
      (run b q).search_query = (run b q).refined_query) ∧
    ((b.retrieval_agent (run b q).search_query).papers = none →
      (run b q).papers = []) ∧
    ((b.prescreen_agent (run b q).papers).filtered_papers = none →
      (run b q).filtered_papers = []) ∧
    ((b.pdf_agent (run b q).filtered_papers).pdf_links = none →
      (run b q).pdf_links = []) ∧
    ((b.synthesis_agent (run b q).pdf_links (run b q).filtered_papers).final_summary = none →
      (run b q).final_summary = "No papers were provided for analysis.") := by
  refine ⟨fun h => ?_, fun h => ?_, fun h => ?_, fun h => ?_, fun h => ?_, fun h => ?_⟩ <;>
    simp only [run] at h ⊢ <;> rw [h] <;> rfl

/-- C1 witness: a backend omitting every declared output field at the query
"q" yields all six fallbacks. -/
theorem c1_stage_fallbacks_witness :
    (run noneBackend "q").refined_query = "q" ∧
    (run noneBackend "q").search_query = "q" ∧
    (run noneBackend "q").papers = [] ∧
    (run noneBackend "q").filtered_papers = [] ∧
    (run noneBackend "q").pdf_links = [] ∧
    (run noneBackend "q").final_summary = "No papers were provided for analysis." := by
  obtain ⟨h1, h2, h3, h4, h5, h6⟩ := c1_stage_fallbacks noneBackend "q"
  exact ⟨h1 rfl, (h2 rfl).trans (h1 rfl), h3 rfl, h4 rfl, h5 rfl, h6 rfl⟩

/-- C5: data flow is strictly linear: `run` invokes exactly the six stages,
each with precisely the preceding stage's (possibly fallback-substituted)
output - Formulate with query, BuildQuery with refined_query, Retrieve with
the search_query value bound to its refined_query field, Prescreen with
papers, RetrievePdfs with filtered_papers - and only Synthesize additionally
receives the carried-forward filtered_papers alongside pdf_links. -/
theorem c5_linear_dataflow (b : Backend) (q : String) :
    (runTrace b q).1 =
      [StageCall.formulate q,
       StageCall.buildQuery (run b q).refined_query,
       StageCall.retrieve (run b q).search_query,
       StageCall.prescreen (run b q).papers,
       StageCall.retrievePdfs (run b q).filtered_papers,
       StageCall.synthesize (run b q).pdf_links (run b q).filtered_papers] := rfl

/-- C7: each call of `crossref_search_json` issues exactly one HTTP GET, to
the fixed Crossref endpoint with the query as the query parameter and the
row count capped at 5; no second (pagination or retry) request ever appears
in the request log, whatever the response. -/
theorem c7_single_request (http : String → HttpResponse) (q : String) :
    (crossref_search_json http q).2 = [crossrefUrl q] ∧
    crossrefUrl q = "https://api.crossref.org/works?query=" ++ q ++ "&rows=5" := by
  refine ⟨?_, rfl⟩
  unfold crossref_search_json
  by_cases h : (http (crossrefUrl q)).status_code ≠ 200 <;> simp [h]

/-- C8: in the static agent table, exactly one of the six stages - the final
synthesis stage - uses direct structured generation (ChainOfThought), the
other five use the iterative tool-use mode (ReAct), and only the retrieval
stage carries a tool, the Crossref search connector; every other tool set is
empty. -/
theorem c8_static_config :
    agent_table.length = 6 ∧
    (agent_table.filter (fun a => a.2.mode == Mode.chainOfThought)).map Prod.fst =
      ["synthesis_agent"] ∧
    (agent_table.filter (fun a => a.2.mode == Mode.react)).length = 5 ∧
    (agent_table.filter (fun a => !a.2.tools.isEmpty)).map Prod.fst =
      ["retrieval_agent"] ∧
    (agent_table.filter (fun a => a.2.tools == ["crossref_search_json"])).map Prod.fst =
      ["retrieval_agent"] := by
  decide

/-- C9: invoking the pipeline twice with the same query in the same process,
against a backend that is a function (identical outputs for identical
inputs), yields identical PipelineState values in both runs, and the process
state is unchanged by the first invocation: no hidden state carries over. -/
theorem c9_idempotent (p : Process) (q : String) :
    (invoke p q).1 = p ∧ (invoke (invoke p q).1 q).2 = (invoke p q).2 :=
  ⟨rfl, rfl⟩

def emptyTitleItem : CrossrefItem :=
  { DOI := none, title := some [], URL := none, publisher := none }

def httpEmptyTitle : String → HttpResponse :=
  fun _ => { status_code := 200, body := { message := some { items := some [emptyTitleItem] } } }

/-- C2: the spec requires "Untitled" whenever the source title list is
absent or empty, without raising; but `item.get("title", ["Untitled"])[0]`
only defends against an absent key. On a 200 response whose single item has
`title` present as the empty list, the connector raises IndexError (modelled
as `none`) instead of producing a record titled "Untitled". -/
theorem c2_empty_title_list_raises :
    paperOfItem emptyTitleItem = none ∧
    (crossref_search_json httpEmptyTitle "q").1 = none := ⟨rfl, rfl⟩

def http500 : String → HttpResponse :=
  fun _ => { status_code := 500, body := { message := none } }

def backend500 : Backend where
  problem_agent := fun q => { refined_query := some q }
  query_builder_agent := fun q => { search_query := some q }
  retrieval_agent := fun _ => { papers := none }
  prescreen_agent := fun _ => { filtered_papers := some [] }
  pdf_agent := fun _ => { pdf_links := some [] }
  synthesis_agent := fun _ _ => { final_summary := none }

/-- C3: on any non-2xx HTTP status, `crossref_search_json` returns the error
dict value - it does not raise into the pipeline - and when the retrieval
stage consequently omits its `papers` output, the orchestrator's fallback
`papers := []` applies, so the run is not aborted. -/
theorem c3_connector_error_fallback (http : String → HttpResponse)
    (b : Backend) (q : String)
    (hs : (http (crossrefUrl q)).status_code < 200 ∨
      299 < (http (crossrefUrl q)).status_code) :
    (crossref_search_json http q).1 =
      some (ConnectorResult.error "Failed to fetch from Crossref.") ∧
    ((b.retrieval_agent (run b q).search_query).papers = none →
      (run b q).papers = []) := by
  constructor
  · have h200 : (http (crossrefUrl q)).status_code ≠ 200 := by omega
    simp [crossref_search_json, h200]
  · intro h
    simp only [run] at h ⊢
    rw [h]
    rfl

/-- C3 witness: an HTTP 500 from Crossref yields the error dict, and with a
backend whose retrieval stage then omits `papers`, the run's papers list is
empty. -/
theorem c3_connector_error_fallback_witness :
    (crossref_search_json http500 "q").1 =
      some (ConnectorResult.error "Failed to fetch from Crossref.") ∧
    (run backend500 "q").papers = [] := by
  obtain ⟨h1, h2⟩ :=
    c3_connector_error_fallback http500 backend500 "q" (by right; decide)
  exact ⟨h1, h2 rfl⟩

/-- C4: the six stages of `run` execute unconditionally in fixed order -
the stage trace is the same constant list for every backend and every
query, so there is no branching or early exit on intermediate content - and
in particular a run whose papers list is empty still reaches Synthesize and
completes, ending with the sentinel summary when Synthesize's output is
absent. -/
theorem c4_fixed_order_completion (b : Backend) (q : String) :
    ((runTrace b q).1.map StageCall.stage) =
      [StageName.formulate, StageName.buildQuery, StageName.retrieve,
       StageName.prescreen, StageName.retrievePdfs, StageName.synthesize] ∧
    ((run b q).papers = [] →
      (b.synthesis_agent (run b q).pdf_links (run b q).filtered_papers).final_summary = none →
      (run b q).final_summary = "No papers were provided for analysis.") := by
  refine ⟨rfl, fun _ h => ?_⟩
  simp only [run] at h ⊢
  rw [h]
  rfl

/-- C4 witness (end-to-end scenario B): after a connector failure the
retrieval stage omits `papers`; the trace still visits all six stages and
the run completes with the sentinel summary. -/
theorem c4_fixed_order_completion_witness :
    ((runTrace backend500 "g").1.map StageCall.stage) =
      [StageName.formulate, StageName.buildQuery, StageName.retrieve,
       StageName.prescreen, StageName.retrievePdfs, StageName.synthesize] ∧
    (run backend500 "g").final_summary = "No papers were provided for analysis." := by
  obtain ⟨h1, h2⟩ := c4_fixed_order_completion backend500 "g"
  exact ⟨h1, h2 rfl rfl⟩

/-- C6 as stated: the credential is read from GOOGLE_API_KEY or
GEMINI_API_KEY with the first PRESENT variable winning, and startup fails
only when neither is set. -/
def claimC6 : Prop :=
  ∀ env : String → Option String,
    (∀ k, env "GOOGLE_API_KEY" = some k → startup env = Except.ok k) ∧
    (env "GOOGLE_API_KEY" = none →
      ∀ k, env "GEMINI_API_KEY" = some k → startup env = Except.ok k) ∧
    (env "GOOGLE_API_KEY" = none → env "GEMINI_API_KEY" = none →
      ∃ e, startup env = Except.error e)

def envEmptyGoogle : String → Option String :=
  fun name =>
    if name = "GOOGLE_API_KEY" then some ""
    else if name = "GEMINI_API_KEY" then some "gemini-key" else none

/-- C6 counterexample: with GOOGLE_API_KEY present but empty and
GEMINI_API_KEY set, Python's `or` skips the falsy empty string and the code
uses the GEMINI key, so "first present wins" is false. -/
theorem c6_counterexample : ¬ claimC6 := by
  intro h
  have h1 := (h envEmptyGoogle).1 "" rfl
  have h2 : startup envEmptyGoogle = Except.ok "gemini-key" := rfl
  rw [h1] at h2
  simp at h2

/-- C6 amended: the credential is the first TRUTHY (set and non-empty)
value among GOOGLE_API_KEY then GEMINI_API_KEY; if both are unset or empty,
the module-level check raises ValueError, so the process produces no
pipeline state for any query. -/
theorem c6_amended (env : String → Option String) :
    (∀ k, env "GOOGLE_API_KEY" = some k → k ≠ "" → startup env = Except.ok k) ∧
    (truthy (env "GOOGLE_API_KEY") = false →
      ∀ k, env "GEMINI_API_KEY" = some k → k ≠ "" → startup env = Except.ok k) ∧
    (truthy (env "GOOGLE_API_KEY") = false →
      truthy (env "GEMINI_API_KEY") = false →
      startup env =
        Except.error "Missing GOOGLE_API_KEY or GEMINI_API_KEY in environment!" ∧
      ∀ b q, runProcess env b q =
        Except.error "Missing GOOGLE_API_KEY or GEMINI_API_KEY in environment!") := by
  refine ⟨fun k hk hne => ?_, fun hg k hk hne => ?_, fun hg hm => ?_⟩
  · have hp : pyOr (env "GOOGLE_API_KEY") (env "GEMINI_API_KEY") = some k := by
      simp [pyOr, truthy, hk, hne]
    simp [startup, hp, truthy, hne]
  · have hp : pyOr (env "GOOGLE_API_KEY") (env "GEMINI_API_KEY") = some k := by
      simp [pyOr, hg, hk]
    simp [startup, hp, truthy, hne]
  · have hstart : startup env =
        Except.error "Missing GOOGLE_API_KEY or GEMINI_API_KEY in environment!" := by
      simp [startup, pyOr, hg, hm]
    exact ⟨hstart, fun b q => by simp [runProcess, hstart]⟩

def envBothMissing : String → Option String := fun _ => none

def envGoogleSet : String → Option String :=
  fun name => if name = "GOOGLE_API_KEY" then some "google-key" else none

/-- C6 amended witness: a non-empty GOOGLE_API_KEY wins, and with both
variables unset startup raises the ValueError. -/
theorem c6_amended_witness :
    startup envGoogleSet = Except.ok "google-key" ∧
    startup envBothMissing =
      Except.error "Missing GOOGLE_API_KEY or GEMINI_API_KEY in environment!" :=
  ⟨(c6_amended envGoogleSet).1 "google-key" rfl (by decide),
   ((c6_amended envBothMissing).2.2 rfl rfl).1⟩

/-- The `data.get("message", {}).get("items", [])` expression of
src/main.py line 30 applied to a response. -/
def itemsOf (r : HttpResponse) : List CrossrefItem :=
  (r.body.message.getD { items := none }).items.getD []

theorem crossref_ok (http : String → HttpResponse) (q : String)
    (hs : (http (crossrefUrl q)).status_code = 200) :
    (crossref_search_json http q).1 =
      (buildPapers (itemsOf (http (crossrefUrl q)))).map ConnectorResult.papers := by
  unfold crossref_search_json itemsOf
  simp [hs]

/-- C10 as stated: every 200 response yields a papers list (missing
`message` or `items` keys included, via the empty list), one record per
item in source order, with doi, url and publisher verbatim. -/
def claimC10 : Prop :=
  ∀ (http : String → HttpResponse) (q : String),
    (http (crossrefUrl q)).status_code = 200 →
    ∃ ps : List Publication,
      (crossref_search_json http q).1 = some (ConnectorResult.papers ps) ∧
      ps.map Publication.doi = (itemsOf (http (crossrefUrl q))).map CrossrefItem.DOI ∧
      ps.map Publication.url = (itemsOf (http (crossrefUrl q))).map CrossrefItem.URL ∧
      ps.map Publication.publisher =
        (itemsOf (http (crossrefUrl q))).map CrossrefItem.publisher

/-- C10 counterexample: on a 200 response whose single item carries
`title: []`, the connector raises IndexError (`none`) and returns no papers
list at all, so the claim fails as stated. -/
theorem c10_counterexample : ¬ claimC10 := by
  intro h
  obtain ⟨ps, hps, -⟩ := h httpEmptyTitle "q" rfl
  have hnone : (crossref_search_json httpEmptyTitle "q").1 = none := rfl
  rw [hnone] at hps
  exact Option.noConfusion hps

/-- Total per-item mapping: the record the loop body builds whenever it does
not raise, with "Untitled" for an absent title list. -/
def paperOfItemTotal (item : CrossrefItem) : Publication :=
  { doi := item.DOI,
    title := match item.title with
      | some (t :: _) => t
      | _ => "Untitled",
    url := item.URL,
    publisher := item.publisher }

theorem buildPapers_eq_map (items : List CrossrefItem)
    (h : ∀ item ∈ items, item.title ≠ some []) :
    buildPapers items = some (items.map paperOfItemTotal) := by
  induction items with
  | nil => rfl
  | cons item rest ih =>
    have hitem : item.title ≠ some [] := h item (List.mem_cons_self item rest)
    have hrest := ih (fun it hit => h it (List.mem_cons_of_mem item hit))
    have hpap : paperOfItem item = some (paperOfItemTotal item) := by
      cases ht : item.title with
      | none => simp [paperOfItem, paperOfItemTotal, ht]
      | some l =>
        cases l with
        | nil => exact absurd ht hitem
        | cons t ts => simp [paperOfItem, paperOfItemTotal, ht]
    simp [buildPapers, hpap, hrest]

/-- C10 amended: on a 200 response, provided no item carries a present but
EMPTY title list, the connector returns exactly one record per element of
`message.items` in source order, with doi, url and publisher verbatim (and
records nothing, returning the empty list, when `message` or `items` is
absent); an item whose title list is present and empty instead makes the
call raise IndexError. -/
theorem c10_amended (http : String → HttpResponse) (q : String)
    (hs : (http (crossrefUrl q)).status_code = 200)
    (ht : ∀ item ∈ itemsOf (http (crossrefUrl q)), item.title ≠ some []) :
    (crossref_search_json http q).1 =
      some (ConnectorResult.papers
        ((itemsOf (http (crossrefUrl q))).map paperOfItemTotal)) ∧
    ((itemsOf (http (crossrefUrl q))).map paperOfItemTotal).map Publication.doi =
      (itemsOf (http (crossrefUrl q))).map CrossrefItem.DOI ∧
    ((itemsOf (http (crossrefUrl q))).map paperOfItemTotal).map Publication.url =
      (itemsOf (http (crossrefUrl q))).map CrossrefItem.URL ∧
    ((itemsOf (http (crossrefUrl q))).map paperOfItemTotal).map Publication.publisher =
      (itemsOf (http (crossrefUrl q))).map CrossrefItem.publisher ∧
    (itemsOf (http (crossrefUrl q)) = [] →
      (crossref_search_json http q).1 = some (ConnectorResult.papers [])) := by
  have hmain : (crossref_search_json http q).1 =
      some (ConnectorResult.papers
        ((itemsOf (http (crossrefUrl q))).map paperOfItemTotal)) := by
    rw [crossref_ok http q hs, buildPapers_eq_map _ ht]
    rfl
  refine ⟨hmain, ?_, ?_, ?_, fun hempty => ?_⟩
  · simp [List.map_map, paperOfItemTotal, Function.comp]
  · simp [List.map_map, paperOfItemTotal, Function.comp]
  · simp [List.map_map, paperOfItemTotal, Function.comp]
  · rw [hmain, hempty]
    rfl

def goodItem1 : CrossrefItem :=
  { DOI := some "10.1234/x", title := none, URL := some "https://a.example", publisher := none }

def goodItem2 : CrossrefItem :=
  { DOI := none, title := some ["T1", "T2"], URL := none, publisher := some "Pub" }

def httpGood : String → HttpResponse :=
  fun _ =>
    { status_code := 200,
      body := { message := some { items := some [goodItem1, goodItem2] } } }

/-- C10 amended witness: a 200 response with one title-less item and one
two-title item maps to the corresponding two records. -/
theorem c10_amended_witness :
    (crossref_search_json httpGood "q").1 =
      some (ConnectorResult.papers
        ((itemsOf (httpGood (crossrefUrl "q"))).map paperOfItemTotal)) :=
  (c10_amended httpGood "q" rfl (by decide)).1
